import Mathlib

/-!
Verification of the noir signaling worker (pkg/noir/worker.go).

We shallowly embed the two core procedures the specification describes:
`worker.HandleJoin` and `worker.PeerChannel`.  External collaborators
(Manager, the ion-sfu engine peer, the Redis queue) are modelled by an
explicit environment record holding the results their calls return, and
each procedure is embedded as a function producing the ordered list of
observable effects (Manager calls, engine calls, queue enqueues, log
lines) it performs, exactly in the order the Go source performs them.
JSON (un)marshalling of payloads is modelled by carrying the parse
result (`Option` of the decoded value) in the message, and marshalling
of a reply body by carrying the value itself: wire encoding is outside
the specified core.
-/

/-- SDP type of a session description, as in pion/webrtc v3 (`SDPTypeOffer`,
`SDPTypePranswer`, `SDPTypeAnswer`, `SDPTypeRollback`, plus the zero
"unknown" value produced when decoding an unrecognized string). -/
inductive SDPType where
  | unknown
  | offer
  | pranswer
  | answer
  | rollback
deriving DecidableEq, Repr

/-- A `webrtc.SessionDescription`: an SDP type together with the SDP text. -/
structure SessionDescription where
  sdpType : SDPType
  sdp : String
deriving DecidableEq, Repr

/-- The `Negotiation` message (message_types.go): a wrapped session
description sent when renegotiating the peer connection. -/
structure Negotiation where
  desc : SessionDescription
deriving DecidableEq, Repr

/-- The fields of `pb.JoinRequest` that `HandleJoin` reads: the room id
(`Sid`) and the client's SDP offer text (`Description`). -/
structure JoinRequest where
  sid : String
  description : String
deriving DecidableEq, Repr

/-- The fields of `pb.Trickle` that `PeerChannel` reads: the JSON-encoded
ICE candidate (`Init`), modelled by its parse result (`none` when
`json.Unmarshal` into `webrtc.ICECandidateInit` fails, `some c` with the
decoded candidate text otherwise), and the numeric `Target`. -/
structure TrickleMsg where
  init : Option String
  target : Int
deriving DecidableEq, Repr

/-- The payload oneof of `pb.SignalRequest`, restricted to the variants
the worker inspects.  A `description` carries the parse result of
`json.Unmarshal` of its bytes into `Negotiation` (`none` = malformed). -/
inductive SignalPayload where
  | join (j : JoinRequest)
  | description (d : Option Negotiation)
  | trickle (t : TrickleMsg)
  | kill
deriving DecidableEq, Repr

/-- `pb.SignalRequest`: connection id (`Id`), correlation id
(`RequestId`), and the payload oneof (`none` when no variant is set). -/
structure SignalRequest where
  id : String
  requestId : String
  payload : Option SignalPayload
deriving DecidableEq, Repr

/-- The command oneof of `pb.NoirRequest`, restricted to what the peer
channel's switch distinguishes: a signal, or any other variant (such as
`RoomAdmin`), which falls to the default arm. -/
inductive Command where
  | signal (s : SignalRequest)
  | other
deriving DecidableEq, Repr

/-- `pb.NoirRequest` as the peer channel sees it: the command oneof,
`none` when unset (the zero value). -/
structure NoirRequest where
  command : Option Command
deriving DecidableEq, Repr

/-- The zero value of `pb.NoirRequest`: the value `request` keeps when
`UnmarshalRequest` fails (the Go code declares `request := pb.NoirRequest{}`
and dispatches it even when unmarshalling reported an error). -/
def zeroRequest : NoirRequest := { command := none }

/-- The payload oneof of `pb.SignalReply` as the worker builds it.
Marshalled bodies (`packed`, `bytes`) are modelled by the value that was
marshalled. -/
inductive ReplyPayload where
  | joinReply (answer : SessionDescription)
  | description (answer : SessionDescription)
  | trickle (init : String) (target : Int)
deriving DecidableEq, Repr

/-- A `pb.NoirReply` wrapping a `pb.SignalReply`: connection id,
correlation id (`""` when the Go code leaves `RequestId` unset), and the
payload. -/
structure NoirReply where
  id : String
  requestId : String
  payload : ReplyPayload
deriving DecidableEq, Repr

/-- `pb.KeyTopicToPeer`: the connection's inbound queue topic.  The key
builder lives outside the specified core; only that it is a function of
the pid matters here. -/
def KeyTopicToPeer (pid : String) : String := "noir/to-peer/" ++ pid

/-- `pb.KeyTopicFromPeer`: the connection's outbound queue topic. -/
def KeyTopicFromPeer (pid : String) : String := "noir/from-peer/" ++ pid

/-- Observable effects of `worker.HandleJoin`, in program order: the
Manager call creating the engine peer, queue-handle resolutions, the
three event-hook registrations, the engine `Join` negotiation, the reply
enqueue (tagged with its topic), and the spawn of the peer channel. -/
inductive JoinEvent where
  | createClient
  | getQueue (topic : String)
  | regOnIceCandidate
  | regOnICEStateChange
  | regOnOffer
  | joinCall (sid : String) (offer : SessionDescription)
  | enqueue (topic : String) (r : NoirReply)
  | spawnPeerChannel (pid : String) (sid : String)
deriving DecidableEq, Repr

/-- Environment for one `HandleJoin` run: the result of
`Manager.CreateClient`, and the `(answer, error)` pair returned by
`peer.Join` (the Go code binds the error to `_`). -/
structure JoinEnv where
  createClient : Except String Unit
  joinAnswer : SessionDescription
  joinErr : Option String

/-- `signal.GetJoin()`: the nil-safe proto getter, returning the zero
`JoinRequest` when the payload is not a join. -/
def SignalRequest.getJoin (s : SignalRequest) : JoinRequest :=
  match s.payload with
  | some (.join j) => j
  | _ => { sid := "", description := "" }

/-- Shallow embedding of `worker.HandleJoin` (worker.go:116-209): the
list of effects it performs, in order, and the error it returns.  On
`CreateClient` failure it returns the error at once; otherwise it
resolves both peer queues, registers the three hooks, performs the join
negotiation with an offer built from the request's SDP (discarding the
negotiation error), enqueues one join reply echoing the request id on
the outbound topic, and spawns the peer channel. -/
def HandleJoin (env : JoinEnv) (signal : SignalRequest) : List JoinEvent × Option String :=
  match env.createClient with
  | .error e => ([.createClient], some e)
  | .ok _ =>
    let join := signal.getJoin
    let pid := signal.id
    let offer : SessionDescription := { sdpType := .offer, sdp := join.description }
    ([.createClient,
      .getQueue (KeyTopicToPeer pid),
      .getQueue (KeyTopicFromPeer pid),
      .regOnIceCandidate,
      .regOnICEStateChange,
      .regOnOffer,
      .joinCall join.sid offer,
      .enqueue (KeyTopicFromPeer pid)
        { id := pid, requestId := signal.requestId,
          payload := .joinReply env.joinAnswer },
      .spawnPeerChannel pid join.sid],
     none)

/-- True on the reply-enqueue effects of a join trace. -/
def JoinEvent.isEnqueue : JoinEvent → Bool
  | .enqueue _ _ => true
  | _ => false

/-- True on the event-hook registration effects of a join trace. -/
def JoinEvent.isReg : JoinEvent → Bool
  | .regOnIceCandidate => true
  | .regOnICEStateChange => true
  | .regOnOffer => true
  | _ => false

/-- True on the engine `Join` negotiation effect of a join trace. -/
def JoinEvent.isJoinCall : JoinEvent → Bool
  | .joinCall _ _ => true
  | _ => false

/-- True on the peer-channel spawn effect of a join trace. -/
def JoinEvent.isSpawn : JoinEvent → Bool
  | .spawnPeerChannel _ _ => true
  | _ => false

/-- Every event satisfying `p` occurs strictly before every event
satisfying `q` in the trace `t`. -/
def allBefore (p q : JoinEvent → Bool) (t : List JoinEvent) : Prop :=
  ∀ i j : Fin t.length, p (t.get i) = true → q (t.get j) = true → (i : Nat) < (j : Nat)

/-- Observable effects of one `worker.PeerChannel` loop iteration, in
program order: log lines (tagged by the format string's fixed part),
the Manager calls (`CloseClient`, `GetRemoteRoomData`, `ValidateOffer`),
the engine-peer calls (`SetRemoteDescription`, `Answer`, `Trickle`), and
reply enqueues on the outbound topic. -/
inductive PeerEvent where
  | logMsg (s : String)
  | closeClient (pid : String)
  | getRoomData (roomID : String)
  | validateOffer (pid : String) (d : SessionDescription)
  | setRemoteDescription (d : SessionDescription)
  | answerCall (d : SessionDescription)
  | trickleCall (candidate : String) (target : Int)
  | enqueue (topic : String) (r : NoirReply)
deriving DecidableEq, Repr

/-- Environment for one peer-channel iteration: the outcome of
`Manager.GetRemoteRoomData` (the room data itself is only passed on to
validation, so only success/failure is kept), the outcome of
`Manager.ValidateOffer`, and the answer returned by `peer.Answer` (whose
error the Go code binds to `_`). -/
structure PeerEnv where
  roomData : Except String Unit
  validate : Except String Unit
  answer : SessionDescription

/-- What one blocking pop from the connection's inbound queue delivered:
`popError b` when `BlockUntilNext` returned an error (and `b` records
whether `UnmarshalRequest` of the leftover zero-value message also
reports an error), `malformed` when the popped message failed to
unmarshal as a `pb.NoirRequest`, or the decoded request. -/
inductive Inbound where
  | popError (zeroParseFails : Bool)
  | malformed
  | request (r : NoirRequest)
deriving DecidableEq, Repr

/-- The dispatch switch of `worker.PeerChannel` (worker.go:224-287) on
one request: effects in order, paired with `true` exactly when the
iteration executes `return` (terminating the loop). -/
def dispatchCommand (env : PeerEnv) (pid roomID : String) (r : NoirRequest) :
    List PeerEvent × Bool :=
  match r.command with
  | some (.signal signal) =>
    match signal.payload with
    | some .kill =>
      ([.logMsg "got KillRequest for peer", .closeClient pid], true)
    | some (.description d) =>
      match d with
      | none => ([.logMsg "unmarshal err"], false)
      | some desc =>
        if desc.desc.sdpType = .answer then
          ([.logMsg "got answer, setting description",
            .setRemoteDescription desc.desc], false)
        else if desc.desc.sdpType = .offer then
          match env.roomData with
          | .error _ =>
            ([.getRoomData roomID, .logMsg "err getting room to validate offer"], false)
          | .ok _ =>
            match env.validate with
            | .error _ =>
              ([.getRoomData roomID, .validateOffer pid desc.desc,
                .logMsg "rejected offer"], false)
            | .ok _ =>
              ([.getRoomData roomID, .validateOffer pid desc.desc,
                .answerCall desc.desc,
                .logMsg "got offer, sending reply",
                .enqueue (KeyTopicFromPeer pid)
                  { id := pid, requestId := signal.requestId,
                    payload := .description env.answer }], false)
        else ([], false)
    | some (.trickle t) =>
      match t.init with
      | none => ([.logMsg "unmarshal err"], false)
      | some candidate => ([.trickleCall candidate t.target], false)
    | some (.join _) => ([.logMsg "unknown signal for peer"], false)
    | none => ([.logMsg "unknown signal for peer"], false)
  | some .other => ([.logMsg "unknown command for peer"], false)
  | none => ([.logMsg "unknown command for peer"], false)

/-- One iteration of the `worker.PeerChannel` loop (worker.go:214-288):
a pop error is logged but does not skip the rest of the iteration — the
zero-value request is still unmarshalled (possibly logging again) and
dispatched; an unmarshal failure is logged and the zero-value request is
dispatched; otherwise the decoded request is dispatched. -/
def peerStep (env : PeerEnv) (pid roomID : String) (inb : Inbound) :
    List PeerEvent × Bool :=
  match inb with
  | .popError true =>
    let step := dispatchCommand env pid roomID zeroRequest
    (.logMsg "getting message to peer" ::
       .logMsg "unmarshal message to peer" :: step.1, step.2)
  | .popError false =>
    let step := dispatchCommand env pid roomID zeroRequest
    (.logMsg "getting message to peer" :: step.1, step.2)
  | .malformed =>
    let step := dispatchCommand env pid roomID zeroRequest
    (.logMsg "unmarshal message to peer" :: step.1, step.2)
  | .request r =>
    dispatchCommand env pid roomID r

/-- The `worker.PeerChannel` loop run over a (finite prefix of a) stream
of iteration inputs, each with the collaborator results in effect for
that iteration: the concatenated trace, stopping as soon as an
iteration returns. -/
def peerLoop (pid roomID : String) : List (PeerEnv × Inbound) → List PeerEvent
  | [] => []
  | (env, inb) :: rest =>
    let step := peerStep env pid roomID inb
    if step.2 then step.1 else step.1 ++ peerLoop pid roomID rest

/-- True on the reply-enqueue effects of a peer trace. -/
def PeerEvent.isEnqueue : PeerEvent → Bool
  | .enqueue _ _ => true
  | _ => false

/-- True on the engine-connection calls of a peer trace
(`SetRemoteDescription`, `Answer`, `Trickle`). -/
def PeerEvent.isEngineCall : PeerEvent → Bool
  | .setRemoteDescription _ => true
  | .answerCall _ => true
  | .trickleCall _ _ => true
  | _ => false

/-- True on the `peer.Answer` computations of a peer trace. -/
def PeerEvent.isAnswerCall : PeerEvent → Bool
  | .answerCall _ => true
  | _ => false

/-- True on the `Manager.CloseClient` calls of a peer trace. -/
def PeerEvent.isCloseClient : PeerEvent → Bool
  | .closeClient _ => true
  | _ => false

/-- True on the `peer.SetRemoteDescription` calls of a peer trace. -/
def PeerEvent.isSetRemote : PeerEvent → Bool
  | .setRemoteDescription _ => true
  | _ => false

/-- True on the log lines of a peer trace. -/
def PeerEvent.isLog : PeerEvent → Bool
  | .logMsg _ => true
  | _ => false

/-- An iteration input whose payload is malformed or unrecognized, in
the sense of the peer channel's parse and dispatch arms: the message
fails to unmarshal as a request, its command or signal-payload oneof is
unset or not one the switch names, its description bytes fail to decode
as a `Negotiation`, or its trickle init fails to decode as a candidate.
Pop errors are not of this kind. -/
def malformedInput : Inbound → Bool
  | .popError _ => false
  | .malformed => true
  | .request r =>
    match r.command with
    | none => true
    | some .other => true
    | some (.signal s) =>
      match s.payload with
      | none => true
      | some (.join _) => true
      | some (.description none) => true
      | some (.description (some _)) => false
      | some (.trickle t) => t.init.isNone
      | some .kill => false

/-- Claim C1: for every join request in which `Manager.CreateClient`
succeeds, `HandleJoin` enqueues exactly one reply, a Join-answer on the
connection's outbound topic, whose `requestId` equals the request's
`requestId` and whose connection id equals the request's `Id` (pid). -/
theorem handleJoin_one_join_reply (ansr : SessionDescription)
    (jerr : Option String) (signal : SignalRequest) :
    (HandleJoin ⟨.ok (), ansr, jerr⟩ signal).1.filter JoinEvent.isEnqueue =
      [.enqueue (KeyTopicFromPeer signal.id)
        { id := signal.id, requestId := signal.requestId,
          payload := .joinReply ansr }] := by
  simp [HandleJoin, JoinEvent.isEnqueue]

/-- Claim C4: when `Manager.CreateClient` fails, `HandleJoin` aborts:
no reply is enqueued, no event hook is registered, no peer channel is
spawned (and no negotiation happens), and the error is returned to the
caller. -/
theorem handleJoin_create_error_aborts (e : String)
    (ansr : SessionDescription) (jerr : Option String) (signal : SignalRequest) :
    (HandleJoin ⟨.error e, ansr, jerr⟩ signal).1.countP JoinEvent.isEnqueue = 0 ∧
    (HandleJoin ⟨.error e, ansr, jerr⟩ signal).1.countP JoinEvent.isReg = 0 ∧
    (HandleJoin ⟨.error e, ansr, jerr⟩ signal).1.countP JoinEvent.isSpawn = 0 ∧
    (HandleJoin ⟨.error e, ansr, jerr⟩ signal).2 = some e := by
  refine ⟨?_, ?_, ?_, ?_⟩ <;>
    simp [HandleJoin, JoinEvent.isEnqueue, JoinEvent.isReg, JoinEvent.isSpawn]

/-- When no event of kind `p` occurs in `l₂` and no event of kind `q`
occurs in `l₁`, every `p`-event of `l₁ ++ l₂` strictly precedes every
`q`-event. -/
theorem allBefore_append (p q : JoinEvent → Bool) (l₁ l₂ : List JoinEvent)
    (hp : ∀ x ∈ l₂, p x = false) (hq : ∀ x ∈ l₁, q x = false) :
    allBefore p q (l₁ ++ l₂) := by
  intro i j hi hj
  have hilen : (i : Nat) < l₁.length + l₂.length := by
    have := i.isLt; simpa using this
  have hjl : l₁.length ≤ (j : Nat) := by
    by_contra hc
    push_neg at hc
    have hmem : (l₁ ++ l₂).get j ∈ l₁ := by
      rw [List.get_eq_getElem, List.getElem_append_left hc]
      exact List.getElem_mem hc
    rw [hq _ hmem] at hj
    exact Bool.false_ne_true hj
  have hil : (i : Nat) < l₁.length := by
    by_contra hc
    push_neg at hc
    have hmem : (l₁ ++ l₂).get i ∈ l₂ := by
      rw [List.get_eq_getElem, List.getElem_append_right hc]
      exact List.getElem_mem _
    rw [hp _ hmem] at hi
    exact Bool.false_ne_true hi
  omega

/-- Claim C7: in every `HandleJoin` run that reaches negotiation (which
is every run in which `CreateClient` succeeds), all three event hooks
are registered, the engine `Join` call happens exactly once, and every
hook registration occurs strictly before the `Join` call in the effect
trace. -/
theorem handleJoin_hooks_before_negotiation (ansr : SessionDescription)
    (jerr : Option String) (signal : SignalRequest) :
    (HandleJoin ⟨.ok (), ansr, jerr⟩ signal).1.countP JoinEvent.isReg = 3 ∧
    (HandleJoin ⟨.ok (), ansr, jerr⟩ signal).1.countP JoinEvent.isJoinCall = 1 ∧
    allBefore JoinEvent.isReg JoinEvent.isJoinCall
      (HandleJoin ⟨.ok (), ansr, jerr⟩ signal).1 := by
  refine ⟨?_, ?_, ?_⟩
  · simp [HandleJoin, JoinEvent.isReg]
  · simp [HandleJoin, JoinEvent.isJoinCall]
  · have htr : (HandleJoin ⟨.ok (), ansr, jerr⟩ signal).1 =
        [JoinEvent.createClient,
         .getQueue (KeyTopicToPeer signal.id),
         .getQueue (KeyTopicFromPeer signal.id),
         .regOnIceCandidate, .regOnICEStateChange, .regOnOffer] ++
        [.joinCall signal.getJoin.sid
           { sdpType := .offer, sdp := signal.getJoin.description },
         .enqueue (KeyTopicFromPeer signal.id)
           { id := signal.id, requestId := signal.requestId,
             payload := .joinReply ansr },
         .spawnPeerChannel signal.id signal.getJoin.sid] := by
      simp [HandleJoin]
    rw [htr]
    apply allBefore_append
    · intro x hx
      simp only [List.mem_cons, List.not_mem_nil, or_false] at hx
      rcases hx with rfl | rfl | rfl <;> rfl
    · intro x hx
      simp only [List.mem_cons, List.not_mem_nil, or_false] at hx
      rcases hx with rfl | rfl | rfl | rfl | rfl | rfl <;> rfl

/-- Claim C8: the error of the engine `Join` call is discarded: even
when the negotiation returns an error, `HandleJoin` still enqueues the
Join-answer reply (serializing whatever answer value was returned) with
the echoed request id, still spawns the peer channel, and still returns
no error. -/
theorem handleJoin_discards_join_error (e : String)
    (ansr : SessionDescription) (signal : SignalRequest) :
    (HandleJoin ⟨.ok (), ansr, some e⟩ signal).1.filter JoinEvent.isEnqueue =
      [.enqueue (KeyTopicFromPeer signal.id)
        { id := signal.id, requestId := signal.requestId,
          payload := .joinReply ansr }] ∧
    (HandleJoin ⟨.ok (), ansr, some e⟩ signal).1.countP JoinEvent.isSpawn = 1 ∧
    (HandleJoin ⟨.ok (), ansr, some e⟩ signal).2 = none := by
  refine ⟨?_, ?_, ?_⟩ <;>
    simp [HandleJoin, JoinEvent.isEnqueue, JoinEvent.isSpawn]

/-- Claim C3: a Kill payload makes the peer channel call
`Manager.CloseClient` exactly once, with the channel's pid, and
terminate at once: the iteration enqueues no reply, and the loop's
whole remaining trace is just this iteration's, whatever inputs would
have followed. -/
theorem peerChannel_kill_closes_and_stops (env : PeerEnv)
    (pid roomID cid reqId : String) (rest : List (PeerEnv × Inbound)) :
    (peerStep env pid roomID
        (.request ⟨some (.signal ⟨cid, reqId, some .kill⟩)⟩)).1.filter
        PeerEvent.isCloseClient = [.closeClient pid] ∧
    (peerStep env pid roomID
        (.request ⟨some (.signal ⟨cid, reqId, some .kill⟩)⟩)).1.countP
        PeerEvent.isEnqueue = 0 ∧
    (peerStep env pid roomID
        (.request ⟨some (.signal ⟨cid, reqId, some .kill⟩)⟩)).2 = true ∧
    peerLoop pid roomID
        ((env, .request ⟨some (.signal ⟨cid, reqId, some .kill⟩)⟩) :: rest) =
      (peerStep env pid roomID
        (.request ⟨some (.signal ⟨cid, reqId, some .kill⟩)⟩)).1 := by
  refine ⟨?_, ?_, ?_, ?_⟩ <;>
    simp [peerStep, peerLoop, dispatchCommand,
      PeerEvent.isCloseClient, PeerEvent.isEnqueue]

/-- Claim C6: a Description payload of subtype answer makes the peer
channel apply the decoded description as the engine connection's remote
description exactly once, enqueue no reply, and continue the loop. -/
theorem peerChannel_answer_sets_remote (env : PeerEnv)
    (pid roomID cid reqId sdp : String) (rest : List (PeerEnv × Inbound)) :
    (peerStep env pid roomID
        (.request ⟨some (.signal ⟨cid, reqId,
          some (.description (some ⟨⟨.answer, sdp⟩⟩))⟩)⟩)).1.filter
        PeerEvent.isSetRemote = [.setRemoteDescription ⟨.answer, sdp⟩] ∧
    (peerStep env pid roomID
        (.request ⟨some (.signal ⟨cid, reqId,
          some (.description (some ⟨⟨.answer, sdp⟩⟩))⟩)⟩)).1.countP
        PeerEvent.isEnqueue = 0 ∧
    (peerStep env pid roomID
        (.request ⟨some (.signal ⟨cid, reqId,
          some (.description (some ⟨⟨.answer, sdp⟩⟩))⟩)⟩)).2 = false ∧
    peerLoop pid roomID
        ((env, .request ⟨some (.signal ⟨cid, reqId,
          some (.description (some ⟨⟨.answer, sdp⟩⟩))⟩)⟩) :: rest) =
      (peerStep env pid roomID
        (.request ⟨some (.signal ⟨cid, reqId,
          some (.description (some ⟨⟨.answer, sdp⟩⟩))⟩)⟩)).1 ++
        peerLoop pid roomID rest := by
  refine ⟨?_, ?_, ?_, ?_⟩ <;>
    simp [peerStep, peerLoop, dispatchCommand,
      PeerEvent.isSetRemote, PeerEvent.isEnqueue]

/-- Claim C2: for a Description payload of subtype offer, the three
possible collaborator outcomes behave as follows, and the loop never
terminates.  When `GetRemoteRoomData` fails, or when it succeeds and
`ValidateOffer` fails: no reply enqueued and no `peer.Answer` call.
When both succeed: exactly one `peer.Answer` call and exactly one
Description reply, carrying the triggering request's id. -/
theorem peerChannel_offer_validated (pid roomID cid reqId sdp e : String)
    (v rd : Except String Unit) (ansr : SessionDescription) :
    ((peerStep ⟨.error e, v, ansr⟩ pid roomID
        (.request ⟨some (.signal ⟨cid, reqId,
          some (.description (some ⟨⟨.offer, sdp⟩⟩))⟩)⟩)).1.countP
        PeerEvent.isEnqueue = 0 ∧
     (peerStep ⟨.error e, v, ansr⟩ pid roomID
        (.request ⟨some (.signal ⟨cid, reqId,
          some (.description (some ⟨⟨.offer, sdp⟩⟩))⟩)⟩)).1.countP
        PeerEvent.isAnswerCall = 0 ∧
     (peerStep ⟨.error e, v, ansr⟩ pid roomID
        (.request ⟨some (.signal ⟨cid, reqId,
          some (.description (some ⟨⟨.offer, sdp⟩⟩))⟩)⟩)).2 = false) ∧
    ((peerStep ⟨rd, .error e, ansr⟩ pid roomID
        (.request ⟨some (.signal ⟨cid, reqId,
          some (.description (some ⟨⟨.offer, sdp⟩⟩))⟩)⟩)).1.countP
        PeerEvent.isEnqueue = 0 ∧
     (peerStep ⟨rd, .error e, ansr⟩ pid roomID
        (.request ⟨some (.signal ⟨cid, reqId,
          some (.description (some ⟨⟨.offer, sdp⟩⟩))⟩)⟩)).1.countP
        PeerEvent.isAnswerCall = 0 ∧
     (peerStep ⟨rd, .error e, ansr⟩ pid roomID
        (.request ⟨some (.signal ⟨cid, reqId,
          some (.description (some ⟨⟨.offer, sdp⟩⟩))⟩)⟩)).2 = false) ∧
    ((peerStep ⟨.ok (), .ok (), ansr⟩ pid roomID
        (.request ⟨some (.signal ⟨cid, reqId,
          some (.description (some ⟨⟨.offer, sdp⟩⟩))⟩)⟩)).1.countP
        PeerEvent.isAnswerCall = 1 ∧
     (peerStep ⟨.ok (), .ok (), ansr⟩ pid roomID
        (.request ⟨some (.signal ⟨cid, reqId,
          some (.description (some ⟨⟨.offer, sdp⟩⟩))⟩)⟩)).1.filter
        PeerEvent.isEnqueue =
       [.enqueue (KeyTopicFromPeer pid)
          { id := pid, requestId := reqId, payload := .description ansr }] ∧
     (peerStep ⟨.ok (), .ok (), ansr⟩ pid roomID
        (.request ⟨some (.signal ⟨cid, reqId,
          some (.description (some ⟨⟨.offer, sdp⟩⟩))⟩)⟩)).2 = false) := by
  refine ⟨⟨?_, ?_, ?_⟩, ⟨?_, ?_, ?_⟩, ⟨?_, ?_, ?_⟩⟩ <;>
    cases rd <;>
      simp [peerStep, dispatchCommand,
        PeerEvent.isEnqueue, PeerEvent.isAnswerCall]

/-- Claim C9: a Description payload whose decoded SDP type is neither
answer nor offer produces an empty effect trace — no engine call, no
reply, not even a log line — and the loop simply continues with the
next input. -/
theorem peerChannel_skips_other_sdp_types (env : PeerEnv)
    (pid roomID cid reqId sdp : String) (ty : SDPType)
    (rest : List (PeerEnv × Inbound))
    (hta : ty ≠ .answer) (hto : ty ≠ .offer) :
    peerStep env pid roomID
        (.request ⟨some (.signal ⟨cid, reqId,
          some (.description (some ⟨⟨ty, sdp⟩⟩))⟩)⟩) = ([], false) ∧
    peerLoop pid roomID
        ((env, .request ⟨some (.signal ⟨cid, reqId,
          some (.description (some ⟨⟨ty, sdp⟩⟩))⟩)⟩) :: rest) =
      peerLoop pid roomID rest := by
  refine ⟨?_, ?_⟩ <;>
    simp [peerStep, peerLoop, dispatchCommand, hta, hto]

/-- Claim C9 witness: the pranswer subtype at a concrete input. -/
theorem peerChannel_skips_other_sdp_types_witness :
    (SDPType.pranswer ≠ SDPType.answer) ∧ (SDPType.pranswer ≠ SDPType.offer) ∧
    (peerStep ⟨.ok (), .ok (), ⟨.answer, "va"⟩⟩ "peerA" "room1"
        (.request ⟨some (.signal ⟨"peerA", "req-9",
          some (.description (some ⟨⟨.pranswer, "vp"⟩⟩))⟩)⟩) = ([], false) ∧
     peerLoop "peerA" "room1"
        [(⟨.ok (), .ok (), ⟨.answer, "va"⟩⟩, .request ⟨some (.signal ⟨"peerA", "req-9",
          some (.description (some ⟨⟨.pranswer, "vp"⟩⟩))⟩)⟩)] =
      peerLoop "peerA" "room1" []) :=
  ⟨by decide, by decide,
   peerChannel_skips_other_sdp_types _ "peerA" "room1" "peerA" "req-9" "vp"
     .pranswer [] (by decide) (by decide)⟩

/-- Claim C10: when the blocking pop fails, the iteration still runs to
dispatch: the zero-value request reaches the command switch (landing in
its default arm), and the iteration makes no engine call, enqueues no
reply, and continues the loop. -/
theorem peerChannel_pop_error_still_dispatches (env : PeerEnv)
    (pid roomID : String) (b : Bool) (rest : List (PeerEnv × Inbound)) :
    (peerStep env pid roomID (.popError b)).1 =
      (if b then
        [PeerEvent.logMsg "getting message to peer",
         .logMsg "unmarshal message to peer"]
       else [PeerEvent.logMsg "getting message to peer"]) ++
      (dispatchCommand env pid roomID zeroRequest).1 ∧
    (peerStep env pid roomID (.popError b)).1.countP PeerEvent.isEnqueue = 0 ∧
    (peerStep env pid roomID (.popError b)).1.countP PeerEvent.isEngineCall = 0 ∧
    (peerStep env pid roomID (.popError b)).2 = false ∧
    peerLoop pid roomID ((env, .popError b) :: rest) =
      (peerStep env pid roomID (.popError b)).1 ++ peerLoop pid roomID rest := by
  refine ⟨?_, ?_, ?_, ?_, ?_⟩ <;>
    cases b <;>
      simp [peerStep, peerLoop, dispatchCommand, zeroRequest,
        PeerEvent.isEnqueue, PeerEvent.isEngineCall]

/-- Claim C5: a message whose payload is malformed (the message fails to
unmarshal as a request, the description bytes fail to decode as a
`Negotiation`, the trickle init fails to decode as a candidate) or whose
payload variant is unrecognized by the dispatch switch never terminates
the loop and never enqueues a reply: the iteration logs at least one
line and the loop moves on to the next input. -/
theorem peerChannel_malformed_drops (env : PeerEnv) (pid roomID : String)
    (inb : Inbound) (rest : List (PeerEnv × Inbound))
    (h : malformedInput inb = true) :
    (peerStep env pid roomID inb).2 = false ∧
    (peerStep env pid roomID inb).1.countP PeerEvent.isEnqueue = 0 ∧
    1 ≤ (peerStep env pid roomID inb).1.countP PeerEvent.isLog ∧
    peerLoop pid roomID ((env, inb) :: rest) =
      (peerStep env pid roomID inb).1 ++ peerLoop pid roomID rest := by
  cases inb with
  | popError b => simp [malformedInput] at h
  | malformed =>
    refine ⟨?_, ?_, ?_, ?_⟩ <;>
      simp [peerStep, peerLoop, dispatchCommand, zeroRequest,
        PeerEvent.isEnqueue, PeerEvent.isLog]
  | request r =>
    obtain ⟨cmd⟩ := r
    match cmd with
    | none =>
      refine ⟨?_, ?_, ?_, ?_⟩ <;>
        simp [peerStep, peerLoop, dispatchCommand,
          PeerEvent.isEnqueue, PeerEvent.isLog]
    | some .other =>
      refine ⟨?_, ?_, ?_, ?_⟩ <;>
        simp [peerStep, peerLoop, dispatchCommand,
          PeerEvent.isEnqueue, PeerEvent.isLog]
    | some (.signal s) =>
      obtain ⟨cid, reqId, pl⟩ := s
      match pl with
      | none =>
        refine ⟨?_, ?_, ?_, ?_⟩ <;>
          simp [peerStep, peerLoop, dispatchCommand,
            PeerEvent.isEnqueue, PeerEvent.isLog]
      | some (.join j) =>
        refine ⟨?_, ?_, ?_, ?_⟩ <;>
          simp [peerStep, peerLoop, dispatchCommand,
            PeerEvent.isEnqueue, PeerEvent.isLog]
      | some (.description none) =>
        refine ⟨?_, ?_, ?_, ?_⟩ <;>
          simp [peerStep, peerLoop, dispatchCommand,
            PeerEvent.isEnqueue, PeerEvent.isLog]
      | some (.description (some n)) => simp [malformedInput] at h
      | some .kill => simp [malformedInput] at h
      | some (.trickle t) =>
        obtain ⟨i, tg⟩ := t
        match i with
        | none =>
          refine ⟨?_, ?_, ?_, ?_⟩ <;>
            simp [peerStep, peerLoop, dispatchCommand,
              PeerEvent.isEnqueue, PeerEvent.isLog]
        | some c => simp [malformedInput] at h

/-- Claim C5 witness: a Description payload with undecodable bytes at a
concrete input. -/
theorem peerChannel_malformed_drops_witness :
    malformedInput (.request ⟨some (.signal ⟨"peerA", "req-5",
        some (.description none)⟩)⟩) = true ∧
    ((peerStep ⟨.ok (), .ok (), ⟨.answer, "va"⟩⟩ "peerA" "room1"
        (.request ⟨some (.signal ⟨"peerA", "req-5",
          some (.description none)⟩)⟩)).2 = false ∧
     (peerStep ⟨.ok (), .ok (), ⟨.answer, "va"⟩⟩ "peerA" "room1"
        (.request ⟨some (.signal ⟨"peerA", "req-5",
          some (.description none)⟩)⟩)).1.countP PeerEvent.isEnqueue = 0 ∧
     1 ≤ (peerStep ⟨.ok (), .ok (), ⟨.answer, "va"⟩⟩ "peerA" "room1"
        (.request ⟨some (.signal ⟨"peerA", "req-5",
          some (.description none)⟩)⟩)).1.countP PeerEvent.isLog ∧
     peerLoop "peerA" "room1"
        [(⟨.ok (), .ok (), ⟨.answer, "va"⟩⟩, .request ⟨some (.signal ⟨"peerA", "req-5",
          some (.description none)⟩)⟩)] =
       (peerStep ⟨.ok (), .ok (), ⟨.answer, "va"⟩⟩ "peerA" "room1"
        (.request ⟨some (.signal ⟨"peerA", "req-5",
          some (.description none)⟩)⟩)).1 ++ peerLoop "peerA" "room1" []) :=
  ⟨by decide,
   peerChannel_malformed_drops ⟨.ok (), .ok (), ⟨.answer, "va"⟩⟩ "peerA" "room1"
     (.request ⟨some (.signal ⟨"peerA", "req-5",
       some (.description none)⟩)⟩) [] (by decide)⟩
